import Mathlib

/-!
Verification of the agent-platform repository against its specification.

The definitions below are a shallow embedding of the Python source:
  * `collector/routers/metrics.py` (metric ingest and query),
  * `agents/base_agent.py` (the runtime contract),
  * `agents/lead_generation/tools/db_manager.py` (leads, city rotation),
  * `agents/lead_generation/tools/discover_leads.py` (discovery loop),
  * `agents/lead_generation/tools/scheduler.py` (trigger predicate),
  * `agents/lead_generation/tools/server.py` (status facade).
Machine data is modelled with `Nat`, `Int`, `Rat`, `Option` and lists;
timestamps are integers, SQL tables are Lean lists of records.
-/

namespace AgentPlatform

/-! ## Collector: scalar metric values (`collector/routers/metrics.py`) -/

/-- A Python scalar as it arrives in the `metrics` mapping of a push request:
int, float, bool, str or None.  Floats are modelled as rationals. -/
inductive PyValue where
  | pyInt (n : Int)
  | pyFloat (q : Rat)
  | pyBool (b : Bool)
  | pyStr (s : String)
  | pyNone
  deriving DecidableEq, Repr

/-- Model of `_is_numeric(value)`: `isinstance(value, (int, float)) and not isinstance(value, bool)`.
Booleans are a separate constructor here, mirroring the explicit bool exclusion. -/
def is_numeric : PyValue → Bool
  | .pyInt _ => true
  | .pyFloat _ => true
  | _ => false

/-- Model of `_to_numeric(value)`: the value itself when `_is_numeric`, else `None`. -/
def to_numeric : PyValue → Option Rat
  | .pyInt n => some (n : Rat)
  | .pyFloat q => some q
  | _ => none

/-- Python `str(value)` on a metric scalar. -/
def py_str : PyValue → String
  | .pyInt n => toString n
  | .pyFloat q => toString q
  | .pyBool true => "True"
  | .pyBool false => "False"
  | .pyStr s => s
  | .pyNone => "None"

/-- Payload of `POST /metrics` (`MetricsPushRequest` in `models/metric.py`). -/
structure MetricsPushRequest where
  agent_name : String
  metrics : List (String × PyValue)
  started_at : Int
  finished_at : Int
  error : Option String
  deriving DecidableEq, Repr

/-- Python `str.strip()`: drop leading and trailing whitespace. -/
def py_strip (s : String) : String :=
  String.mk (((s.data.dropWhile Char.isWhitespace).reverse.dropWhile Char.isWhitespace).reverse)

/-- Pydantic validation of `MetricsPushRequest`: `agent_name` must be non-blank
and is stripped; the `metrics` dict is kept as-is (`v or {}` only replaces
falsy values by the empty dict, which is the identity on dicts). -/
def validate_push_request (p : MetricsPushRequest) : Option MetricsPushRequest :=
  if py_strip p.agent_name = "" then none
  else some { p with agent_name := py_strip p.agent_name }

/-- One row of the `agent_runs` table (`models/db.py`). -/
structure AgentRun where
  id : Nat
  agent_name : String
  started_at : Int
  finished_at : Option Int
  status : String
  error_message : Option String
  deriving DecidableEq, Repr

/-- One row of the `agent_metrics` table (`models/db.py`). -/
structure AgentMetric where
  run_id : Nat
  agent_name : String
  metric_name : String
  metric_value : Option Rat
  metric_text : Option String
  deriving DecidableEq, Repr

/-- The collector store: runs, metric rows, and the id sequence. -/
structure CollectorState where
  runs : List AgentRun
  metric_rows : List AgentMetric
  next_id : Nat
  deriving DecidableEq, Repr

/-- Python truthiness of an `Optional[str]`: `None` and `""` are falsy. -/
def truthy : Option String → Bool
  | none => false
  | some s => s ≠ ""

/-- Response of `POST /metrics`. -/
structure MetricsPushResponse where
  run_id : Nat
  agent_name : String
  status : String
  deriving DecidableEq, Repr

/-- The metric row built for one `(key, value)` entry of the payload:
`metric_value=_to_numeric(value)`, `metric_text=str(value) if not _is_numeric(value) else None`. -/
def mk_metric (rid : Nat) (agent : String) (kv : String × PyValue) : AgentMetric :=
  { run_id := rid
    agent_name := agent
    metric_name := kv.1
    metric_value := to_numeric kv.2
    metric_text := if is_numeric kv.2 then none else some (py_str kv.2) }

/-- The `push_metrics` handler: derives `status = "failed" if payload.error else "success"`,
inserts one `AgentRun`, then one `AgentMetric` per entry of `payload.metrics`. -/
def push_metrics (st : CollectorState) (payload : MetricsPushRequest) :
    CollectorState × MetricsPushResponse :=
  let status := if truthy payload.error then "failed" else "success"
  let run : AgentRun :=
    { id := st.next_id
      agent_name := payload.agent_name
      started_at := payload.started_at
      finished_at := some payload.finished_at
      status := status
      error_message := payload.error }
  let rows := payload.metrics.map (mk_metric run.id payload.agent_name)
  ({ runs := st.runs ++ [run]
     metric_rows := st.metric_rows ++ rows
     next_id := st.next_id + 1 },
   { run_id := run.id, agent_name := payload.agent_name, status := status })

/-! ## Collector: `GET /metrics` (`collector/routers/metrics.py`) -/

/-- The value stored under a key of a flattened summary mapping:
`float(metric_value)` when `metric_value` is non-null, else `metric_text`. -/
inductive FlatVal where
  | num (q : Rat)
  | text (s : Option String)
  deriving DecidableEq, Repr

/-- The `metrics` relationship of a run: its metric rows, keyed by `run_id`. -/
def run_metric_rows (st : CollectorState) (run : AgentRun) : List AgentMetric :=
  st.metric_rows.filter (fun m => m.run_id = run.id)

/-- Flattening rule of `_run_to_summary`: `metric_value` (as float) wins when
present, otherwise `metric_text`. -/
def flat_val (m : AgentMetric) : FlatVal :=
  match m.metric_value with
  | some v => .num v
  | none => .text m.metric_text

/-- One `AgentRunSummary` as returned by `GET /metrics`. -/
structure AgentRunSummary where
  run_id : Nat
  agent_name : String
  started_at : Int
  finished_at : Option Int
  status : String
  error_message : Option String
  metrics : List (String × FlatVal)
  deriving DecidableEq, Repr

/-- Model of `_run_to_summary(run)`. -/
def run_to_summary (st : CollectorState) (run : AgentRun) : AgentRunSummary :=
  { run_id := run.id
    agent_name := run.agent_name
    started_at := run.started_at
    finished_at := run.finished_at
    status := run.status
    error_message := run.error_message
    metrics := (run_metric_rows st run).map (fun m => (m.metric_name, flat_val m)) }

/-- The WHERE clause of the query: optional equality on `agent_name` and a
strict `started_at > started_after` filter. -/
def run_matches (agent_name : Option String) (started_after : Option Int)
    (run : AgentRun) : Bool :=
  (match agent_name with | none => true | some a => run.agent_name = a) &&
  (match started_after with | none => true | some t => t < run.started_at)

/-- Ordering used by `ORDER BY started_at ASC`. -/
def started_le (a b : AgentRun) : Prop := a.started_at ≤ b.started_at

instance : DecidableRel started_le := fun x y =>
  inferInstanceAs (Decidable (x.started_at ≤ y.started_at))

instance : IsTotal AgentRun started_le := ⟨fun a b => Int.le_total a.started_at b.started_at⟩

instance : IsTrans AgentRun started_le := ⟨fun _ _ _ hab hbc => Int.le_trans hab hbc⟩

/-- The rows produced by the SQL statement of `get_metrics`:
filter by the WHERE clause, order by `started_at` ascending, keep `limit` rows. -/
def select_runs (st : CollectorState) (agent_name : Option String)
    (started_after : Option Int) (limit : Nat) : List AgentRun :=
  (List.insertionSort started_le
    (st.runs.filter (run_matches agent_name started_after))).take limit

/-- The `get_metrics` handler body: query the runs, map each to a summary. -/
def get_metrics (st : CollectorState) (agent_name : Option String)
    (started_after : Option Int) (limit : Nat) : List AgentRunSummary :=
  (select_runs st agent_name started_after limit).map (run_to_summary st)

/-- FastAPI `Query(50, ge=1, le=500)` semantics for the `limit` parameter:
absent means 50; a present value outside `1..500` is rejected (`none`). -/
def resolve_limit : Option Int → Option Nat
  | none => some 50
  | some n => if 1 ≤ n ∧ n ≤ 500 then some n.toNat else none

/-- The full endpoint: validate `limit`, then run the handler. -/
def get_metrics_endpoint (st : CollectorState) (agent_name : Option String)
    (started_after : Option Int) (limit_q : Option Int) :
    Option (List AgentRunSummary) :=
  (resolve_limit limit_q).map (get_metrics st agent_name started_after)

/-! ## Pipeline store: leads (`tools/db_manager.py`) -/

/-- One row of the `leads` table; only the columns the claims touch,
plus the `domain` uniqueness key. -/
structure Lead where
  domain : Option String
  company_name : String
  website : Option String
  email : Option String
  email_source : Option String
  contact_name : Option String
  status : String
  discovered_date : Int
  deriving DecidableEq, Repr

/-- Model of `lead_exists(domain)`: `SELECT id FROM leads WHERE domain = ?` is non-empty. -/
def lead_exists (db : List Lead) (domain : Option String) : Bool :=
  db.any (fun l => l.domain = domain)

/-- Model of `insert_lead(lead_data)`: insert with status set to "new"; a duplicate-key
violation on the unique `domain` column is caught and turned into `None`
with the table unchanged.  Returns the new table and the id (`None` on
duplicate).  The `discovered_date` stamp of the source is carried inside
the input record. -/
def insert_lead (db : List Lead) (lead : Lead) : List Lead × Option Nat :=
  if db.any (fun l => l.domain = lead.domain) then (db, none)
  else (db ++ [{ lead with status := "new" }], some (db.length + 1))

/-- Model of `insert_leads_batch(leads_list)`: iterate `insert_lead` over the list,
counting successful inserts; a duplicate never aborts the iteration. -/
def insert_leads_batch (db : List Lead) : List Lead → List Lead × Nat
  | [] => (db, 0)
  | l :: rest =>
    match insert_lead db l with
    | (db1, some _) =>
      let r := insert_leads_batch db1 rest
      (r.1, r.2 + 1)
    | (db1, none) => insert_leads_batch db1 rest

/-- WHERE clause of `get_leads_needing_email_enrichment`:
email IS NULL AND website IS NOT NULL AND status = "new".
Deliberately independent of `email_source` (see the docstring in the source). -/
def needs_email_enrichment (l : Lead) : Bool :=
  l.email = none && l.website ≠ none && l.status = "new"

/-- Ordering used by `ORDER BY discovered_date DESC`. -/
def discovered_ge (a b : Lead) : Prop := b.discovered_date ≤ a.discovered_date

instance : DecidableRel discovered_ge := fun x y =>
  inferInstanceAs (Decidable (y.discovered_date ≤ x.discovered_date))

instance : IsTotal Lead discovered_ge := ⟨fun a b => Int.le_total b.discovered_date a.discovered_date⟩

instance : IsTrans Lead discovered_ge := ⟨fun _ _ _ hab hbc => Int.le_trans hbc hab⟩

/-- Model of `get_leads_needing_email_enrichment(limit)`: filter, order by
`discovered_date DESC`, take `limit` rows. -/
def get_leads_needing_email_enrichment (db : List Lead) (limit : Nat) : List Lead :=
  (List.insertionSort discovered_ge (db.filter needs_email_enrichment)).take limit

/-! ## Pipeline store: city rotation (`tools/db_manager.py`) -/

/-- One row of the `city_rotation` table.  `last_searched` is a date; `none`
models SQL NULL, and the query coalesces NULL to the sentinel date
`1900-01-01`, modelled as `0` (every real date is positive). -/
structure CityRow where
  city_name : String
  country : String
  language : String
  last_searched : Option Nat
  search_count : Nat
  deriving DecidableEq, Repr

/-- Sort key of `get_next_city`: `(COALESCE(last_searched, 1900-01-01), search_count)`. -/
def city_key (r : CityRow) : Nat × Nat := (r.last_searched.getD 0, r.search_count)

/-- Ordering of `ORDER BY COALESCE(last_searched, sentinel) ASC, search_count ASC`:
lexicographic on the key. -/
def city_le (a b : CityRow) : Prop :=
  (city_key a).1 < (city_key b).1 ∨
    ((city_key a).1 = (city_key b).1 ∧ (city_key a).2 ≤ (city_key b).2)

instance : DecidableRel city_le := fun x y =>
  inferInstanceAs (Decidable (_ ∨ _))

instance : IsTotal CityRow city_le :=
  ⟨fun a b => by
    rcases lt_trichotomy (city_key a).1 (city_key b).1 with h | h | h
    · exact Or.inl (Or.inl h)
    · rcases Nat.le_total (city_key a).2 (city_key b).2 with h2 | h2
      · exact Or.inl (Or.inr ⟨h, h2⟩)
      · exact Or.inr (Or.inr ⟨h.symm, h2⟩)
    · exact Or.inr (Or.inl h)⟩

instance : IsTrans CityRow city_le :=
  ⟨fun a b c hab hbc => by
    rcases hab with h1 | ⟨e1, l1⟩ <;> rcases hbc with h2 | ⟨e2, l2⟩
    · exact Or.inl (lt_trans h1 h2)
    · exact Or.inl (e2 ▸ h1)
    · exact Or.inl (e1 ▸ h2)
    · exact Or.inr ⟨e1.trans e2, l1.trans l2⟩⟩

/-- Model of `get_next_city()`: the first row of the table ordered by the rotation key
(`LIMIT 1`), or `none` when the table is empty. -/
def get_next_city (db : List CityRow) : Option CityRow :=
  (List.insertionSort city_le db).head?

/-- Model of `update_city_searched(city_name, country)`: stamp the matching rows with
the current date and bump their `search_count`. -/
def update_city_searched (db : List CityRow) (city_name country : String)
    (today : Nat) : List CityRow :=
  db.map (fun r =>
    if r.city_name = city_name ∧ r.country = country then
      { r with last_searched := some today, search_count := r.search_count + 1 }
    else r)

/-- Target predicate of `reset_city_rotation`: match by `(city, country)` when
a country is given, by city name alone otherwise. -/
def reset_target (start_city : String) (start_country : Option String)
    (r : CityRow) : Bool :=
  match start_country with
  | some c => r.city_name = start_city && r.country = c
  | none => r.city_name = start_city

/-- Model of `reset_city_rotation(start_city, start_country)`: first stamp every row
with `last_searched = today, search_count = 1`; then clear
(`last_searched = NULL, search_count = 0`) the rows matching the target; return
whether the second UPDATE touched at least one row. -/
def reset_city_rotation (db : List CityRow) (start_city : String)
    (start_country : Option String) (today : Nat) : List CityRow × Bool :=
  let db1 := db.map (fun r => { r with last_searched := some today, search_count := 1 })
  let db2 := db1.map (fun r =>
    if reset_target start_city start_country r then
      { r with last_searched := none, search_count := 0 }
    else r)
  (db2, 0 < (db1.filter (reset_target start_city start_country)).length)

/-! ## Scheduler trigger (`tools/scheduler.py`) -/

/-- A local wall-clock instant, as the trigger predicate reads it:
ISO weekday (1..7), calendar date (as an abstract day index),
hour and minute. -/
structure LocalNow where
  isoweekday : Nat
  date : Nat
  hour : Nat
  minute : Nat
  deriving DecidableEq, Repr

/-- Tuple comparison `(now.hour, now.minute) >= (schedule.hour, schedule.minute)`. -/
def hm_ge (h1 m1 h2 m2 : Nat) : Bool :=
  h2 < h1 || (h1 = h2 && m2 ≤ m1)

/-- Model of `_should_trigger_scheduled_run(now, schedule_time, allowed_days, last_scheduled_run_date)`. -/
def should_trigger_scheduled_run (now : LocalNow) (sched_hour sched_minute : Nat)
    (allowed_days : List Nat) (last_scheduled_run_date : Option Nat) : Bool :=
  if now.isoweekday ∉ allowed_days then false
  else if last_scheduled_run_date = some now.date then false
  else hm_ge now.hour now.minute sched_hour sched_minute

/-! ## Agent runtime (`agents/base_agent.py`) -/

/-- The envelope `_push_metrics` posts to the collector. -/
structure Envelope where
  agent_name : String
  metrics : List (String × PyValue)
  started_at : Int
  finished_at : Int
  error : Option String
  deriving DecidableEq, Repr

/-- Outcome of `BaseAgent.execute()` toward its caller: `ok` on normal
return, or the re-raised exception.  `nameError` models the `ValueError`
raised before the body runs when `name` is empty. -/
inductive ExecOutcome where
  | ok
  | raised (msg : String)
  | nameError
  deriving DecidableEq, Repr

/-- Result of one `execute()` call: what was posted to the collector, and
what the caller observes. -/
structure ExecResult where
  pushed : List Envelope
  outcome : ExecOutcome
  deriving DecidableEq, Repr

/-- Model of `BaseAgent.execute()`.  The agent body `run()` is passed as data: either
a returned metrics mapping or a raised exception message.  `push_fails`
models an exception inside `_push_metrics`, which the source catches and
logs without re-raising.  The `finally` block always posts exactly one
envelope; the exception of the body is re-raised afterwards. -/
def execute (name : String) (body : Except String (List (String × PyValue)))
    (t0 t1 : Int) (push_fails : Bool) : ExecResult :=
  if name = "" then { pushed := [], outcome := .nameError }
  else
    let envelope : Envelope :=
      match body with
      | .ok m => { agent_name := name, metrics := m, started_at := t0,
                   finished_at := t1, error := none }
      | .error e => { agent_name := name, metrics := [], started_at := t0,
                      finished_at := t1, error := some e }
    -- `_push_metrics` swallows its own failure: `push_fails` affects nothing
    -- beyond a log line, and the attempted post is still the one envelope.
    let _ := push_fails
    { pushed := [envelope]
      outcome := match body with
                 | .ok _ => .ok
                 | .error e => .raised e }

/-! ## Status facade (`tools/server.py`) -/

/-- One row of the `pipeline_runs` table as `_get_pipeline_runs` reads it.
`run_date` is a timestamp in seconds; `outreach_sent` is nullable
(`int(row.get(...) or 0)` coalesces NULL to 0); `errors` is the parsed
error list (`_parse_errors`); `duration_seconds` is a float. -/
structure PipelineRunRow where
  run_date : Nat
  leads_discovered : Option Int
  outreach_sent : Option Int
  errors : List String
  duration_seconds : Rat
  deriving DecidableEq, Repr

/-- One row of the `outreach` table, restricted to what
`_count_outreach_sent_between` reads. -/
structure OutreachRow where
  sent_date : Option Nat
  outreach_type : String
  deriving DecidableEq, Repr

/-- Model of `_count_outreach_sent_between(start_dt, end_dt)`: initial outreach rows
with a non-null `sent_date` in `[start_dt, end_dt)`. -/
def count_outreach_sent_between (outreach : List OutreachRow)
    (start_dt end_dt : Nat) : Nat :=
  (outreach.filter (fun o =>
    o.outreach_type = "initial" &&
    match o.sent_date with
    | none => false
    | some d => start_dt ≤ d && d < end_dt)).length

/-- Model of `_status_from_errors(error_count)`. -/
def status_from_errors (error_count : Nat) : String :=
  if error_count = 0 then "Activo"
  else if error_count ≤ 2 then "Optimizando"
  else "En revision"

/-- The 10-minute bucketing
`run_dt.replace(minute=(run_dt.minute // 10) * 10, second=0, microsecond=0)`
on a seconds timestamp: floor to a multiple of 600 seconds. -/
def bucket_10min (ts : Nat) : Nat := ts - ts % 600

/-- Python `round(x, 2)` on values that the claims evaluate it at (exact
multiples of a hundredth, where every rounding mode agrees). -/
def round2 (q : Rat) : Rat := (round (q * 100) : Int) / 100

/-- Ordering used by `WHERE run_date >= ? ORDER BY run_date ASC` over `pipeline_runs`. -/
def run_date_le (a b : PipelineRunRow) : Prop := a.run_date ≤ b.run_date

instance : DecidableRel run_date_le := fun x y =>
  inferInstanceAs (Decidable (x.run_date ≤ y.run_date))

instance : IsTotal PipelineRunRow run_date_le := ⟨fun a b => Nat.le_total a.run_date b.run_date⟩

instance : IsTrans PipelineRunRow run_date_le := ⟨fun _ _ _ h1 h2 => Nat.le_trans h1 h2⟩

/-- Model of `_get_pipeline_runs(updated_after)`. -/
def get_pipeline_runs (db : List PipelineRunRow) (updated_after : Nat) :
    List PipelineRunRow :=
  List.insertionSort run_date_le (db.filter (fun r => updated_after ≤ r.run_date))

/-- One output row of `GET /api/acem/agent-status` (the fields the claims
touch). -/
structure StatusRow where
  status : String
  bucket_start : Nat
  runs_total : Nat
  success_rate : Rat
  avg_latency_ms : Rat
  tasks_completed : Int
  updated_at : Nat
  deriving DecidableEq, Repr

/-- The body of the row-building loop of `_build_status_rows`, for one run
whose successor timestamp (the `run_date` of the next run, or `now` for the last run)
is `next_dt`.  `mock` carries the `ACEM_METRICS_MOCK` override
(`none` = disabled). -/
def build_status_row (outreach : List OutreachRow) (mock : Option (Int × Int))
    (row : PipelineRunRow) (next_dt : Nat) : StatusRow :=
  let error_count := row.errors.length
  let duration_seconds := row.duration_seconds
  let outreach_sent0 := row.outreach_sent.getD 0
  let outreach_sent :=
    match mock with
    | some (_, tasks) => max tasks 0
    | none =>
      if outreach_sent0 ≤ 0 then
        (count_outreach_sent_between outreach row.run_date next_dt : Int)
      else outreach_sent0
  { status := status_from_errors error_count
    bucket_start := bucket_10min row.run_date
    runs_total := 1
    success_rate := round2 (max 0 (100 - min 100 (error_count * 25 : Rat)))
    avg_latency_ms := round2 (max duration_seconds 0 * 1000)
    tasks_completed := max outreach_sent 0
    updated_at := row.run_date }

/-- The loop of `_build_status_rows` over the date-ordered runs: the window
of each run is bounded by the timestamp of the next run, the last by `now`. -/
def build_rows_loop (outreach : List OutreachRow) (mock : Option (Int × Int))
    (now : Nat) : List PipelineRunRow → List StatusRow
  | [] => []
  | [r] => [build_status_row outreach mock r now]
  | r :: r2 :: rest =>
    build_status_row outreach mock r r2.run_date ::
      build_rows_loop outreach mock now (r2 :: rest)

/-- Model of `_build_status_rows(updated_after)`: map the matching runs; when none
match, fall back to the synthesized snapshot row (passed as data here, since
the claims only concern the non-empty case). -/
def build_status_rows (db : List PipelineRunRow) (outreach : List OutreachRow)
    (mock : Option (Int × Int)) (now : Nat) (snapshot : List StatusRow)
    (updated_after : Nat) : List StatusRow :=
  let rows := get_pipeline_runs db updated_after
  match rows with
  | [] => snapshot
  | _ => build_rows_loop outreach mock now rows

/-! ## Discovery loop (`tools/discover_leads.py`) -/

/-- State threaded through the discovery `while` loop. -/
structure DiscoverState where
  rotation : List CityRow
  leads : List Lead
  inserted : Nat
  attempted : List (String × String)
  deriving Repr

/-- The inner `for lead in all_leads` loop of one city: skip existing
domains, insert the rest, and break as soon as `inserted` reaches the
target. -/
def insert_city_leads (target : Nat) : List Lead → List Lead → Nat → List Lead × Nat
  | [], db, ins => (db, ins)
  | l :: rest, db, ins =>
    if lead_exists db l.domain then insert_city_leads target rest db ins
    else
      let db1 := (insert_lead db l).1
      let ins1 := ins + 1
      if target ≤ ins1 then (db1, ins1)
      else insert_city_leads target rest db1 ins1

/-- One iteration of the discovery `while` loop: `none` when one of the
exit conditions of the loop fires (target reached, no city in rotation, or the
rotation came back to an already-attempted city), otherwise the state after
searching one city — the city is always marked as searched, even when it
yielded zero leads. -/
def discover_step (search : String → String → List Lead) (target today : Nat)
    (s : DiscoverState) : Option DiscoverState :=
  if target ≤ s.inserted then none
  else
    match get_next_city s.rotation with
    | none => none
    | some city =>
      if (city.city_name, city.country) ∈ s.attempted then none
      else
        let r := insert_city_leads target (search city.city_name city.country)
          s.leads s.inserted
        some
          { rotation := update_city_searched s.rotation city.city_name city.country today
            leads := r.1
            inserted := r.2
            attempted := s.attempted ++ [(city.city_name, city.country)] }

/-- The discovery `while` loop, with `fuel` standing for
`max_city_attempts - len(attempted_cities)` (the loop appends exactly one
city per iteration, so the two counters move in lockstep). -/
def discover_loop (search : String → String → List Lead) (target today : Nat) :
    Nat → DiscoverState → DiscoverState
  | 0, s => s
  | fuel + 1, s =>
    match discover_step search target today s with
    | none => s
    | some s2 => discover_loop search target today fuel s2

/-- Model of `discover_leads.run()` (the loop part, APOLLO_API_KEY configured):
start from empty bookkeeping with `max_city_attempts = 10`. -/
def discover_run (search : String → String → List Lead) (target today : Nat)
    (rotation : List CityRow) (leads : List Lead) : DiscoverState :=
  discover_loop search target today 10
    { rotation := rotation, leads := leads, inserted := 0, attempted := [] }

/-! ## Theorems -/

/-- C1: for every valid ingest request to `POST /metrics`, each entry of the
`metrics` mapping produces exactly one `AgentMetric` row in which exactly one
of `metric_value` and `metric_text` is non-null: ints and floats (bools
excluded) land in `metric_value` with `metric_text` null, every other value
(booleans included) lands in `metric_text` as its string form with
`metric_value` null. -/
theorem push_metrics_classifies_each_entry
    (st : CollectorState) (p q : MetricsPushRequest)
    (hv : validate_push_request p = some q) :
    (push_metrics st q).1.metric_rows =
      st.metric_rows ++ q.metrics.map (mk_metric st.next_id q.agent_name) ∧
    (∀ kv ∈ q.metrics,
      ((mk_metric st.next_id q.agent_name kv).metric_value ≠ none ∧
        (mk_metric st.next_id q.agent_name kv).metric_text = none) ∨
      ((mk_metric st.next_id q.agent_name kv).metric_value = none ∧
        (mk_metric st.next_id q.agent_name kv).metric_text ≠ none)) ∧
    (∀ kv ∈ q.metrics, ∀ n : Int, kv.2 = .pyInt n →
      (mk_metric st.next_id q.agent_name kv).metric_value = some (n : Rat) ∧
      (mk_metric st.next_id q.agent_name kv).metric_text = none) ∧
    (∀ kv ∈ q.metrics, ∀ x : Rat, kv.2 = .pyFloat x →
      (mk_metric st.next_id q.agent_name kv).metric_value = some x ∧
      (mk_metric st.next_id q.agent_name kv).metric_text = none) ∧
    (∀ kv ∈ q.metrics, is_numeric kv.2 = false →
      (mk_metric st.next_id q.agent_name kv).metric_text = some (py_str kv.2) ∧
      (mk_metric st.next_id q.agent_name kv).metric_value = none) ∧
    (∀ b, is_numeric (.pyBool b) = false) := by
  refine ⟨rfl, ?_, ?_, ?_, ?_, ?_⟩
  · intro kv _
    cases h : kv.2 <;> simp [mk_metric, to_numeric, is_numeric, h]
  · intro kv _ n hn
    simp [mk_metric, to_numeric, is_numeric, hn]
  · intro kv _ x hx
    simp [mk_metric, to_numeric, is_numeric, hx]
  · intro kv _ hnum
    cases h : kv.2 <;> simp_all [mk_metric, to_numeric, is_numeric]
  · intro b
    rfl

/-- Sample state for the C1 witness. -/
def c1_state : CollectorState := { runs := [], metric_rows := [], next_id := 1 }

/-- Sample payload for the C1 witness (spec scenario 1). -/
def c1_payload : MetricsPushRequest :=
  { agent_name := " a "
    metrics := [("x", .pyInt 3), ("y", .pyStr "ok"), ("status", .pyBool true)]
    started_at := 0
    finished_at := 1
    error := none }

/-- Validated form of `c1_payload`. -/
def c1_valid : MetricsPushRequest := { c1_payload with agent_name := "a" }

/-- Witness for C1 at spec scenario 1. -/
theorem push_metrics_classifies_each_entry_witness :
    (push_metrics c1_state c1_valid).1.metric_rows =
      c1_state.metric_rows ++ c1_valid.metrics.map (mk_metric c1_state.next_id c1_valid.agent_name) ∧
    (∀ kv ∈ c1_valid.metrics,
      ((mk_metric c1_state.next_id c1_valid.agent_name kv).metric_value ≠ none ∧
        (mk_metric c1_state.next_id c1_valid.agent_name kv).metric_text = none) ∨
      ((mk_metric c1_state.next_id c1_valid.agent_name kv).metric_value = none ∧
        (mk_metric c1_state.next_id c1_valid.agent_name kv).metric_text ≠ none)) ∧
    (∀ kv ∈ c1_valid.metrics, ∀ n : Int, kv.2 = .pyInt n →
      (mk_metric c1_state.next_id c1_valid.agent_name kv).metric_value = some (n : Rat) ∧
      (mk_metric c1_state.next_id c1_valid.agent_name kv).metric_text = none) ∧
    (∀ kv ∈ c1_valid.metrics, ∀ x : Rat, kv.2 = .pyFloat x →
      (mk_metric c1_state.next_id c1_valid.agent_name kv).metric_value = some x ∧
      (mk_metric c1_state.next_id c1_valid.agent_name kv).metric_text = none) ∧
    (∀ kv ∈ c1_valid.metrics, is_numeric kv.2 = false →
      (mk_metric c1_state.next_id c1_valid.agent_name kv).metric_text = some (py_str kv.2) ∧
      (mk_metric c1_state.next_id c1_valid.agent_name kv).metric_value = none) ∧
    (∀ b, is_numeric (.pyBool b) = false) :=
  push_metrics_classifies_each_entry c1_state c1_payload c1_valid (by decide)

/-- Empty collector state for the C2 theorems. -/
def c2_state : CollectorState := { runs := [], metric_rows := [], next_id := 1 }

/-- Sample payload with an empty-string error (C2 counterexample input). -/
def c2_payload : MetricsPushRequest :=
  { agent_name := "a", metrics := [], started_at := 0, finished_at := 1, error := some "" }

/-- C2 counterexample: a valid request whose `error` is the empty string is
stored with `status = "success"` and `error_message = ""` (non-null), so
the claimed equivalence (status failed exactly when error_message non-null)
fails, as does "status failed
if the error field is set". -/
theorem push_metrics_empty_error_cex :
    validate_push_request c2_payload = some c2_payload ∧
    (push_metrics c2_state c2_payload).1.runs =
      [{ id := 1, agent_name := "a", started_at := 0, finished_at := some 1,
         status := "success", error_message := some "" }] ∧
    ¬(("success" : String) = "failed" ↔ (some "" : Option String) ≠ none) := by
  refine ⟨by decide, rfl, ?_⟩
  intro h
  have := h.mpr (by simp)
  simp at this

/-- C2 (amended): the stored run has `status = "failed"` exactly when the
request has `error` non-null and non-empty, and `"success"` otherwise; the
stored `error_message` is the `error` of the request verbatim, so status is
"failed" exactly when `error_message` is non-null and non-empty.  A request whose
`error` is the empty string yields `status = "success"` with
`error_message = ""` stored. -/
theorem push_metrics_status_error_iff
    (st : CollectorState) (p q : MetricsPushRequest)
    (hv : validate_push_request p = some q) :
    (push_metrics st q).1.runs = st.runs ++
      [{ id := st.next_id, agent_name := q.agent_name, started_at := q.started_at,
         finished_at := some q.finished_at,
         status := if truthy q.error then "failed" else "success",
         error_message := q.error }] ∧
    ((if truthy q.error then "failed" else "success") = "failed" ↔
      (∃ s, q.error = some s ∧ s ≠ "")) ∧
    ((if truthy q.error then "failed" else "success") ≠ "failed" →
      (if truthy q.error then "failed" else "success") = "success") := by
  refine ⟨rfl, ?_, ?_⟩
  · constructor
    · intro h
      by_cases ht : truthy q.error = true
      · cases he : q.error with
        | none => simp [truthy, he] at ht
        | some s =>
          refine ⟨s, rfl, ?_⟩
          simpa [truthy, he] using ht
      · simp [ht] at h
    · rintro ⟨s, he, hs⟩
      simp [truthy, he, hs]
  · intro h
    by_cases ht : truthy q.error = true
    · simp [ht] at h
    · simp [ht]

/-- Sample payload for the C2 witness: a non-empty error message. -/
def c2_boom : MetricsPushRequest :=
  { agent_name := "a", metrics := [], started_at := 0, finished_at := 1, error := some "boom" }

/-- Witness for the amended C2 at a request with `error = "boom"`. -/
theorem push_metrics_status_error_iff_witness :
    (push_metrics c2_state c2_boom).1.runs = c2_state.runs ++
      [{ id := c2_state.next_id, agent_name := c2_boom.agent_name,
         started_at := c2_boom.started_at,
         finished_at := some c2_boom.finished_at,
         status := if truthy c2_boom.error then "failed" else "success",
         error_message := c2_boom.error }] ∧
    ((if truthy c2_boom.error then "failed" else "success") = "failed" ↔
      (∃ s, c2_boom.error = some s ∧ s ≠ "")) ∧
    ((if truthy c2_boom.error then "failed" else "success") ≠ "failed" →
      (if truthy c2_boom.error then "failed" else "success") = "success") :=
  push_metrics_status_error_iff c2_state c2_boom c2_boom (by decide)

/-- First run of the C3 counterexample store (older). -/
def c3_run1 : AgentRun :=
  { id := 1, agent_name := "a", started_at := 10, finished_at := some 11,
    status := "success", error_message := none }

/-- Second run of the C3 counterexample store (most recent). -/
def c3_run2 : AgentRun :=
  { id := 2, agent_name := "a", started_at := 20, finished_at := some 21,
    status := "success", error_message := none }

/-- C3 counterexample store. -/
def c3_state : CollectorState :=
  { runs := [c3_run1, c3_run2], metric_rows := [], next_id := 3 }

/-- C3 counterexample: with two matching runs and `limit = 1`, the handler
returns the OLDEST matching run (`ORDER BY started_at ASC LIMIT 1`) and the
most recent one is absent, refuting "returns the most recent runs". -/
theorem get_metrics_most_recent_cex :
    get_metrics c3_state (some "a") none 1 = [run_to_summary c3_state c3_run1] ∧
    run_matches (some "a") none c3_run2 = true ∧
    c3_run1.started_at < c3_run2.started_at ∧
    (∀ s ∈ get_metrics c3_state (some "a") none 1, s.run_id ≠ c3_run2.id) := by
  refine ⟨by decide, by decide, by decide, by decide⟩

/-- C3 (amended): `GET /metrics` returns the EARLIEST runs matching the
`agent_name` and `started_after` filters — ordered by `started_at` ascending
and capped at `limit` rows (default 50, maximum 500, values outside `1..500`
rejected) — each run carrying its metrics flattened back into a mapping in
which `metric_value` (as a float) wins when present and `metric_text` is
used otherwise.  "Earliest" is witnessed by the last conjunct on runs: a
matching run is returned unless the result is already full of runs that
started no later. -/
theorem get_metrics_earliest_sorted_capped
    (st : CollectorState) (agent_name : Option String) (started_after : Option Int)
    (limit : Nat) (lq : Option Int) :
    (get_metrics st agent_name started_after limit).length ≤ limit ∧
    List.Pairwise (fun s1 s2 : AgentRunSummary => s1.started_at ≤ s2.started_at)
      (get_metrics st agent_name started_after limit) ∧
    (∀ s ∈ get_metrics st agent_name started_after limit,
      ∃ r ∈ st.runs, run_matches agent_name started_after r = true ∧
        s = run_to_summary st r) ∧
    (∀ r ∈ st.runs, run_matches agent_name started_after r = true →
      run_to_summary st r ∈ get_metrics st agent_name started_after limit ∨
        ((get_metrics st agent_name started_after limit).length = limit ∧
          ∀ s ∈ get_metrics st agent_name started_after limit,
            s.started_at ≤ r.started_at)) ∧
    (∀ m : AgentMetric,
      (∀ v, m.metric_value = some v → flat_val m = FlatVal.num v) ∧
      (m.metric_value = none → flat_val m = FlatVal.text m.metric_text)) ∧
    resolve_limit none = some 50 ∧
    (∀ n : Int, 500 < n → resolve_limit (some n) = none) ∧
    (∀ n : Int, n < 1 → resolve_limit (some n) = none) ∧
    get_metrics_endpoint st agent_name started_after lq =
      (resolve_limit lq).map (get_metrics st agent_name started_after) := by
  have hsorted : List.Sorted started_le
      (List.insertionSort started_le (st.runs.filter (run_matches agent_name started_after))) :=
    List.sorted_insertionSort started_le _
  have hperm :
      (List.insertionSort started_le (st.runs.filter (run_matches agent_name started_after))).Perm
        (st.runs.filter (run_matches agent_name started_after)) :=
    List.perm_insertionSort started_le _
  refine ⟨?_, ?_, ?_, ?_, ?_, rfl, ?_, ?_, rfl⟩
  · simp only [get_metrics, select_runs, List.length_map, List.length_take]
    exact Nat.le_trans (Nat.min_le_left _ _) (Nat.le_refl _)
  · rw [get_metrics, select_runs, List.pairwise_map]
    have htake : List.Pairwise started_le
        ((List.insertionSort started_le
          (st.runs.filter (run_matches agent_name started_after))).take limit) :=
      List.Pairwise.sublist (List.take_sublist _ _) hsorted
    exact htake.imp (fun h => h)
  · intro s hs
    rw [get_metrics, List.mem_map] at hs
    obtain ⟨r, hr, hsr⟩ := hs
    have hr2 : r ∈ st.runs.filter (run_matches agent_name started_after) :=
      hperm.mem_iff.mp (List.take_sublist _ _ |>.subset hr)
    rw [List.mem_filter] at hr2
    exact ⟨r, hr2.1, hr2.2, hsr.symm⟩
  · intro r hr hmatch
    have hrf : r ∈ st.runs.filter (run_matches agent_name started_after) :=
      List.mem_filter.mpr ⟨hr, hmatch⟩
    have hrs : r ∈ List.insertionSort started_le
        (st.runs.filter (run_matches agent_name started_after)) :=
      hperm.mem_iff.mpr hrf
    set srt := List.insertionSort started_le
      (st.runs.filter (run_matches agent_name started_after)) with hsrt
    have hsplit : srt.take limit ++ srt.drop limit = srt := List.take_append_drop limit srt
    rw [← hsplit] at hrs
    rcases List.mem_append.mp hrs with htk | hdr
    · exact Or.inl (by rw [get_metrics, select_runs]; exact List.mem_map_of_mem _ htk)
    · refine Or.inr ⟨?_, ?_⟩
      · have hne : srt.drop limit ≠ [] := List.ne_nil_of_mem hdr
        have hlt : limit < srt.length := by
          by_contra hle
          exact hne (List.drop_eq_nil_iff.mpr (Nat.le_of_not_lt hle))
        simp only [get_metrics, select_runs, List.length_map, List.length_take, ← hsrt]
        omega
      · intro s hs
        rw [get_metrics, List.mem_map] at hs
        obtain ⟨x, hx, hxs⟩ := hs
        have hpw : List.Pairwise started_le (srt.take limit ++ srt.drop limit) := by
          rw [hsplit]; exact hsorted
        have hle : started_le x r := (List.pairwise_append.mp hpw).2.2 x hx r hdr
        rw [← hxs]
        exact hle
  · intro m
    constructor
    · intro v hv
      simp [flat_val, hv]
    · intro hv
      simp [flat_val, hv]
  · intro n hn
    simp only [resolve_limit]
    rw [if_neg]
    omega
  · intro n hn
    simp only [resolve_limit]
    rw [if_neg]
    omega

/-- State for the C3 amended-claim witness: one matching run with one
numeric and one text metric. -/
def c3w_state : CollectorState :=
  { runs := [{ id := 1, agent_name := "a", started_at := 5, finished_at := some 6,
               status := "success", error_message := none }]
    metric_rows := [{ run_id := 1, agent_name := "a", metric_name := "x",
                      metric_value := some 3, metric_text := none },
                    { run_id := 1, agent_name := "a", metric_name := "y",
                      metric_value := none, metric_text := some "ok" }]
    next_id := 2 }

/-- Witness for the amended C3 at a concrete store and query. -/
theorem get_metrics_earliest_sorted_capped_witness :
    (get_metrics c3w_state (some "a") none 1).length ≤ 1 ∧
    List.Pairwise (fun s1 s2 : AgentRunSummary => s1.started_at ≤ s2.started_at)
      (get_metrics c3w_state (some "a") none 1) ∧
    (∀ s ∈ get_metrics c3w_state (some "a") none 1,
      ∃ r ∈ c3w_state.runs, run_matches (some "a") none r = true ∧
        s = run_to_summary c3w_state r) ∧
    (∀ r ∈ c3w_state.runs, run_matches (some "a") none r = true →
      run_to_summary c3w_state r ∈ get_metrics c3w_state (some "a") none 1 ∨
        ((get_metrics c3w_state (some "a") none 1).length = 1 ∧
          ∀ s ∈ get_metrics c3w_state (some "a") none 1,
            s.started_at ≤ r.started_at)) ∧
    (∀ m : AgentMetric,
      (∀ v, m.metric_value = some v → flat_val m = FlatVal.num v) ∧
      (m.metric_value = none → flat_val m = FlatVal.text m.metric_text)) ∧
    resolve_limit none = some 50 ∧
    (∀ n : Int, 500 < n → resolve_limit (some n) = none) ∧
    (∀ n : Int, n < 1 → resolve_limit (some n) = none) ∧
    get_metrics_endpoint c3w_state (some "a") none (some 1) =
      (resolve_limit (some 1)).map (get_metrics c3w_state (some "a") none) :=
  get_metrics_earliest_sorted_capped c3w_state (some "a") none 1 (some 1)

/-- C4: every row returned by `get_leads_needing_email_enrichment` has
`email` null, `website` non-null and status "new"; the predicate is
independent of `email_source` (so a lead with `email_source` = "apollo",
`email` null, `website` non-null and status "new" is not excluded), and
such a lead is returned unless the result is already full of `limit`
matching leads discovered no earlier. -/
theorem get_leads_needing_email_enrichment_spec
    (db : List Lead) (limit : Nat) :
    (∀ l ∈ get_leads_needing_email_enrichment db limit,
      l.email = none ∧ l.website ≠ none ∧ l.status = "new") ∧
    (∀ l : Lead, ∀ src : Option String,
      needs_email_enrichment { l with email_source := src } = needs_email_enrichment l) ∧
    (∀ l : Lead, l.email_source = some "apollo" → l.email = none →
      l.website ≠ none → l.status = "new" → needs_email_enrichment l = true) ∧
    (∀ l ∈ db, needs_email_enrichment l = true →
      l ∈ get_leads_needing_email_enrichment db limit ∨
        ((get_leads_needing_email_enrichment db limit).length = limit ∧
          ∀ x ∈ get_leads_needing_email_enrichment db limit,
            l.discovered_date ≤ x.discovered_date)) := by
  have hsorted : List.Sorted discovered_ge
      (List.insertionSort discovered_ge (db.filter needs_email_enrichment)) :=
    List.sorted_insertionSort discovered_ge _
  have hperm :
      (List.insertionSort discovered_ge (db.filter needs_email_enrichment)).Perm
        (db.filter needs_email_enrichment) :=
    List.perm_insertionSort discovered_ge _
  refine ⟨?_, ?_, ?_, ?_⟩
  · intro l hl
    have hl2 : l ∈ db.filter needs_email_enrichment :=
      hperm.mem_iff.mp (List.take_sublist _ _ |>.subset hl)
    have hp := (List.mem_filter.mp hl2).2
    simp only [needs_email_enrichment, Bool.and_eq_true, decide_eq_true_eq] at hp
    exact ⟨hp.1.1, by simpa using hp.1.2, hp.2⟩
  · intro l src
    rfl
  · intro l _ he hw hs
    simp [needs_email_enrichment, he, hw, hs]
  · intro l hl hp
    have hlf : l ∈ db.filter needs_email_enrichment := List.mem_filter.mpr ⟨hl, hp⟩
    have hls : l ∈ List.insertionSort discovered_ge (db.filter needs_email_enrichment) :=
      hperm.mem_iff.mpr hlf
    set srt := List.insertionSort discovered_ge (db.filter needs_email_enrichment) with hsrt
    have hsplit : srt.take limit ++ srt.drop limit = srt := List.take_append_drop limit srt
    rw [← hsplit] at hls
    rcases List.mem_append.mp hls with htk | hdr
    · exact Or.inl htk
    · refine Or.inr ⟨?_, ?_⟩
      · have hne : srt.drop limit ≠ [] := List.ne_nil_of_mem hdr
        have hlt : limit < srt.length := by
          by_contra hle
          exact hne (List.drop_eq_nil_iff.mpr (Nat.le_of_not_lt hle))
        simp only [get_leads_needing_email_enrichment, List.length_take, ← hsrt]
        omega
      · intro x hx
        have hpw : List.Pairwise discovered_ge (srt.take limit ++ srt.drop limit) := by
          rw [hsplit]; exact hsorted
        exact (List.pairwise_append.mp hpw).2.2 x hx l hdr

/-- C4 witness lead: previously touched by Apollo but still without an email. -/
def c4_lead : Lead :=
  { domain := some "x.com", company_name := "X", website := some "https://x.com",
    email := none, email_source := some "apollo", contact_name := none,
    status := "new", discovered_date := 7 }

/-- Witness for C4 at a one-lead table. -/
theorem get_leads_needing_email_enrichment_spec_witness :
    c4_lead ∈ get_leads_needing_email_enrichment [c4_lead] 30 ∨
      ((get_leads_needing_email_enrichment [c4_lead] 30).length = 30 ∧
        ∀ x ∈ get_leads_needing_email_enrichment [c4_lead] 30,
          c4_lead.discovered_date ≤ x.discovered_date) :=
  (get_leads_needing_email_enrichment_spec [c4_lead] 30).2.2.2 c4_lead
    (by decide) (by decide)

/-- C6: with a non-empty name, `BaseAgent.execute` pushes exactly one
envelope on every exit path; on success the envelope carries the returned
mapping and no error; when the body raises, the envelope carries empty
metrics and the exception message, and the exception is re-raised to the
caller; a failure of the collector push never changes what the caller
observes. -/
theorem execute_pushes_one_envelope
    (name : String) (body : Except String (List (String × PyValue)))
    (t0 t1 : Int) (push_fails : Bool) (hname : name ≠ "") :
    (execute name body t0 t1 push_fails).pushed.length = 1 ∧
    (∀ m, body = .ok m →
      (execute name body t0 t1 push_fails).pushed =
        [{ agent_name := name, metrics := m, started_at := t0,
           finished_at := t1, error := none }] ∧
      (execute name body t0 t1 push_fails).outcome = .ok) ∧
    (∀ e, body = .error e →
      (execute name body t0 t1 push_fails).pushed =
        [{ agent_name := name, metrics := [], started_at := t0,
           finished_at := t1, error := some e }] ∧
      (execute name body t0 t1 push_fails).outcome = .raised e) ∧
    execute name body t0 t1 push_fails = execute name body t0 t1 (!push_fails) := by
  refine ⟨?_, ?_, ?_, ?_⟩
  · cases body <;> simp [execute, hname]
  · intro m hm
    subst hm
    simp [execute, hname]
  · intro e he
    subst he
    simp [execute, hname]
  · cases body <;> simp [execute, hname]

/-- Witness for C6: a body that raises `"boom"` while the collector push
also fails. -/
theorem execute_pushes_one_envelope_witness :
    (execute "agent" (.error "boom") 0 1 true).pushed.length = 1 ∧
    (∀ m, (Except.error "boom" : Except String (List (String × PyValue))) = .ok m →
      (execute "agent" (.error "boom") 0 1 true).pushed =
        [{ agent_name := "agent", metrics := m, started_at := 0,
           finished_at := 1, error := none }] ∧
      (execute "agent" (.error "boom") 0 1 true).outcome = .ok) ∧
    (∀ e, (Except.error "boom" : Except String (List (String × PyValue))) = .error e →
      (execute "agent" (.error "boom") 0 1 true).pushed =
        [{ agent_name := "agent", metrics := [], started_at := 0,
           finished_at := 1, error := some e }] ∧
      (execute "agent" (.error "boom") 0 1 true).outcome = .raised e) ∧
    execute "agent" (.error "boom") 0 1 true = execute "agent" (.error "boom") 0 1 (!true) :=
  execute_pushes_one_envelope "agent" (.error "boom") 0 1 true (by decide)

/-- Each successful insert grows the table by exactly one row, so the
returned batch count ties rows to successes. -/
theorem insert_leads_batch_length (db : List Lead) (ls : List Lead) :
    (insert_leads_batch db ls).1.length = db.length + (insert_leads_batch db ls).2 := by
  induction ls generalizing db with
  | nil => simp [insert_leads_batch]
  | cons l rest ih =>
    by_cases hdup : db.any (fun x => x.domain = l.domain)
    · simp only [insert_leads_batch, insert_lead, if_pos hdup]
      exact ih db
    · simp only [insert_leads_batch, insert_lead, if_neg hdup]
      have := ih (db ++ [{ l with status := "new" }])
      simp only [List.length_append, List.length_cons, List.length_nil] at this
      omega

/-- C7: inserting a domain that already exists returns `None` and leaves the
table unchanged; the table length never decreases, neither under one
`insert_lead` nor under any batch; `insert_leads_batch` performs one
single-row insert per element — it continues past duplicates
(compositionality over list append) and returns the number of successful
inserts (table growth equals the returned count). -/
theorem insert_lead_duplicate_noop
    (db : List Lead) (lead : Lead) (ls ls2 : List Lead)
    (hdup : ∃ l ∈ db, l.domain = lead.domain) :
    insert_lead db lead = (db, none) ∧
    db.length ≤ (insert_lead db lead).1.length ∧
    db.length ≤ (insert_leads_batch db ls).1.length ∧
    (insert_leads_batch db ls).1.length = db.length + (insert_leads_batch db ls).2 ∧
    insert_leads_batch db (ls ++ ls2) =
      ((insert_leads_batch (insert_leads_batch db ls).1 ls2).1,
        (insert_leads_batch db ls).2 + (insert_leads_batch (insert_leads_batch db ls).1 ls2).2) := by
  refine ⟨?_, ?_, ?_, insert_leads_batch_length db ls, ?_⟩
  · have hany : db.any (fun l => l.domain = lead.domain) = true := by
      obtain ⟨l, hl, hd⟩ := hdup
      exact List.any_eq_true.mpr ⟨l, hl, by simp [hd]⟩
    simp [insert_lead, hany]
  · unfold insert_lead
    by_cases h : db.any (fun l => l.domain = lead.domain) <;> simp [h]
  · have h := insert_leads_batch_length db ls
    omega
  · clear hdup
    induction ls generalizing db with
    | nil => simp [insert_leads_batch]
    | cons l rest ih =>
      by_cases hd : db.any (fun x => x.domain = l.domain)
      · simp only [List.cons_append, insert_leads_batch, insert_lead, if_pos hd]
        exact ih _
      · simp only [List.cons_append, List.append_eq, insert_leads_batch, insert_lead,
          if_neg hd]
        rw [ih _]
        simp only [Prod.mk.injEq]
        refine ⟨trivial, ?_⟩
        omega

/-- Witness table for C7. -/
def c7_db : List Lead :=
  [{ domain := some "dup.com", company_name := "D", website := some "https://dup.com",
     email := none, email_source := none, contact_name := none,
     status := "new", discovered_date := 1 }]

/-- Fresh lead for the C7 witness batch. -/
def c7_fresh : Lead :=
  { domain := some "new.com", company_name := "N", website := some "https://new.com",
    email := none, email_source := none, contact_name := none,
    status := "new", discovered_date := 2 }

/-- Duplicate-domain lead for the C7 witness. -/
def c7_dup : Lead :=
  { domain := some "dup.com", company_name := "D2", website := none,
    email := none, email_source := none, contact_name := none,
    status := "new", discovered_date := 3 }

/-- Witness for C7: a duplicate insert is a no-op and batches keep going. -/
theorem insert_lead_duplicate_noop_witness :
    insert_lead c7_db c7_dup = (c7_db, none) ∧
    c7_db.length ≤ (insert_lead c7_db c7_dup).1.length ∧
    c7_db.length ≤ (insert_leads_batch c7_db [c7_dup, c7_fresh]).1.length ∧
    (insert_leads_batch c7_db [c7_dup, c7_fresh]).1.length =
      c7_db.length + (insert_leads_batch c7_db [c7_dup, c7_fresh]).2 ∧
    insert_leads_batch c7_db ([c7_dup, c7_fresh] ++ [c7_dup]) =
      ((insert_leads_batch (insert_leads_batch c7_db [c7_dup, c7_fresh]).1 [c7_dup]).1,
        (insert_leads_batch c7_db [c7_dup, c7_fresh]).2 +
          (insert_leads_batch (insert_leads_batch c7_db [c7_dup, c7_fresh]).1 [c7_dup]).2) :=
  insert_lead_duplicate_noop c7_db c7_dup [c7_dup, c7_fresh] [c7_dup]
    ⟨c7_db.head (by decide), by decide, by decide⟩

/-- C8: the scheduler trigger returns `false` when the weekday is not
allowed or the wall-clock `(hour, minute)` is lexicographically before the
schedule time; it returns `true` when the weekday is allowed, the time is
at or past the schedule and the last-run date differs from today; and once
today is marked as last run it returns `false` for the rest of the day. -/
theorem should_trigger_scheduled_run_spec
    (now : LocalNow) (sched_hour sched_minute : Nat)
    (allowed_days : List Nat) (last : Option Nat) :
    ((now.isoweekday ∉ allowed_days ∨
        now.hour < sched_hour ∨ (now.hour = sched_hour ∧ now.minute < sched_minute)) →
      should_trigger_scheduled_run now sched_hour sched_minute allowed_days last = false) ∧
    ((now.isoweekday ∈ allowed_days ∧
        (sched_hour < now.hour ∨ (now.hour = sched_hour ∧ sched_minute ≤ now.minute)) ∧
        last ≠ some now.date) →
      should_trigger_scheduled_run now sched_hour sched_minute allowed_days last = true) ∧
    should_trigger_scheduled_run now sched_hour sched_minute allowed_days
      (some now.date) = false := by
  refine ⟨?_, ?_, ?_⟩
  · intro h
    unfold should_trigger_scheduled_run hm_ge
    by_cases h1 : now.isoweekday ∉ allowed_days
    · rw [if_pos h1]
    · rw [if_neg h1]
      by_cases h2 : last = some now.date
      · rw [if_pos h2]
      · rw [if_neg h2]
        rcases h with hwd | hh | ⟨he, hm⟩
        · exact absurd hwd h1
        · simp only [Bool.or_eq_false_iff, Bool.and_eq_false_iff, decide_eq_false_iff_not]
          omega
        · simp only [Bool.or_eq_false_iff, Bool.and_eq_false_iff, decide_eq_false_iff_not]
          omega
  · rintro ⟨hwd, hhm, hl⟩
    unfold should_trigger_scheduled_run hm_ge
    rw [if_neg (not_not_intro hwd), if_neg hl]
    rcases hhm with hh | ⟨he, hm⟩
    · simp [hh]
    · simp [he, hm]
  · unfold should_trigger_scheduled_run
    by_cases h1 : now.isoweekday ∉ allowed_days
    · rw [if_pos h1]
    · rw [if_neg h1, if_pos rfl]

/-- Witness local time for C8: Wednesday 09:30, schedule 09:00 on Mon-Fri. -/
def c8_now : LocalNow := { isoweekday := 3, date := 100, hour := 9, minute := 30 }

/-- Witness for C8: fires at 09:30 when unmarked, never fires once marked. -/
theorem should_trigger_scheduled_run_spec_witness :
    should_trigger_scheduled_run c8_now 9 0 [1, 2, 3, 4, 5] none = true ∧
    should_trigger_scheduled_run c8_now 9 0 [1, 2, 3, 4, 5] (some c8_now.date) = false :=
  ⟨(should_trigger_scheduled_run_spec c8_now 9 0 [1, 2, 3, 4, 5] none).2.1
      ⟨by decide, by decide, by decide⟩,
    (should_trigger_scheduled_run_spec c8_now 9 0 [1, 2, 3, 4, 5] (some c8_now.date)).2.2⟩

/-- The per-city insertion never overshoots the daily target. -/
theorem insert_city_leads_le (target : Nat) :
    ∀ (ls db : List Lead) (ins : Nat), ins < target →
      (insert_city_leads target ls db ins).2 ≤ target := by
  intro ls
  induction ls with
  | nil =>
    intro db ins h
    exact Nat.le_of_lt h
  | cons l rest ih =>
    intro db ins h
    unfold insert_city_leads
    by_cases hex : lead_exists db l.domain
    · rw [if_pos hex]
      exact ih db ins h
    · rw [if_neg hex]
      by_cases ht : target ≤ ins + 1
      · rw [if_pos ht]
        exact by omega
      · rw [if_neg ht]
        exact ih _ _ (by omega)

/-- What a successful loop iteration does to the state: it consumes the
city returned by `get_next_city`, appends it to the attempted list, and
stamps it as searched in the rotation — regardless of the insert count. -/
theorem discover_step_some
    (search : String → String → List Lead) (target today : Nat)
    (s s2 : DiscoverState) (h : discover_step search target today s = some s2) :
    s.inserted < target ∧
    ∃ city, get_next_city s.rotation = some city ∧
      (city.city_name, city.country) ∉ s.attempted ∧
      s2.attempted = s.attempted ++ [(city.city_name, city.country)] ∧
      s2.rotation = update_city_searched s.rotation city.city_name city.country today ∧
      s2.inserted = (insert_city_leads target (search city.city_name city.country)
        s.leads s.inserted).2 := by
  unfold discover_step at h
  split at h
  · exact absurd h (by simp)
  · rename_i h1
    split at h
    · exact absurd h (by simp)
    · rename_i city hc
      split at h
      · exact absurd h (by simp)
      · rename_i h2
        simp only [Option.some_inj] at h
        exact ⟨by omega, city, hc, h2, by rw [← h], by rw [← h], by rw [← h]⟩

/-- When an iteration stops the loop, one of the exit conditions holds of
the current state. -/
theorem discover_step_none
    (search : String → String → List Lead) (target today : Nat)
    (s : DiscoverState) (h : discover_step search target today s = none) :
    target ≤ s.inserted ∨ get_next_city s.rotation = none ∨
      ∃ city, get_next_city s.rotation = some city ∧
        (city.city_name, city.country) ∈ s.attempted := by
  unfold discover_step at h
  split at h
  · rename_i h1
    exact Or.inl h1
  · rename_i h1
    split at h
    · rename_i hc
      exact Or.inr (Or.inl hc)
    · rename_i city hc
      split at h
      · rename_i h2
        exact Or.inr (Or.inr ⟨city, hc, h2⟩)
      · exact absurd h (by simp)

/-- Loop invariant: the final attempted list extends the current one by at
most `fuel` cities, and the final rotation is the current one with exactly
the newly attempted cities stamped as searched, in order. -/
theorem discover_loop_invariant
    (search : String → String → List Lead) (target today : Nat) :
    ∀ (fuel : Nat) (s : DiscoverState),
      ∃ fresh : List (String × String),
        (discover_loop search target today fuel s).attempted = s.attempted ++ fresh ∧
        fresh.length ≤ fuel ∧
        (discover_loop search target today fuel s).rotation =
          fresh.foldl (fun db k => update_city_searched db k.1 k.2 today) s.rotation := by
  intro fuel
  induction fuel with
  | zero =>
    intro s
    exact ⟨[], by simp [discover_loop], by simp, by simp [discover_loop]⟩
  | succ n ih =>
    intro s
    cases hstep : discover_step search target today s with
    | none =>
      refine ⟨[], ?_, by simp, ?_⟩ <;> simp [discover_loop, hstep]
    | some s2 =>
      obtain ⟨_, city, _, _, hatt, hrot, _⟩ := discover_step_some search target today s s2 hstep
      obtain ⟨fresh, hf1, hf2, hf3⟩ := ih s2
      refine ⟨(city.city_name, city.country) :: fresh, ?_, ?_, ?_⟩
      · simp only [discover_loop, hstep, hf1, hatt, List.append_assoc, List.cons_append,
          List.nil_append]
      · simpa using Nat.succ_le_succ hf2
      · simp only [discover_loop, hstep, hf3, hrot, List.foldl_cons]

/-- The loop never overshoots the target. -/
theorem discover_loop_inserted_le
    (search : String → String → List Lead) (target today : Nat) :
    ∀ (fuel : Nat) (s : DiscoverState), s.inserted ≤ target →
      (discover_loop search target today fuel s).inserted ≤ target := by
  intro fuel
  induction fuel with
  | zero =>
    intro s h
    exact h
  | succ n ih =>
    intro s h
    cases hstep : discover_step search target today s with
    | none => simpa [discover_loop, hstep] using h
    | some s2 =>
      obtain ⟨hlt, city, _, _, _, _, hins⟩ := discover_step_some search target today s s2 hstep
      have h2 : s2.inserted ≤ target := by
        rw [hins]
        exact insert_city_leads_le target _ _ _ hlt
      simpa [discover_loop, hstep] using ih s2 h2

/-- The loop only stops for one of the claimed reasons. -/
theorem discover_loop_stops
    (search : String → String → List Lead) (target today : Nat) :
    ∀ (fuel : Nat) (s : DiscoverState), 10 ≤ s.attempted.length + fuel →
      target ≤ (discover_loop search target today fuel s).inserted ∨
      10 ≤ (discover_loop search target today fuel s).attempted.length ∨
      get_next_city (discover_loop search target today fuel s).rotation = none ∨
      ∃ city, get_next_city (discover_loop search target today fuel s).rotation = some city ∧
        (city.city_name, city.country) ∈
          (discover_loop search target today fuel s).attempted := by
  intro fuel
  induction fuel with
  | zero =>
    intro s h
    exact Or.inr (Or.inl (by simpa [discover_loop] using h))
  | succ n ih =>
    intro s h
    cases hstep : discover_step search target today s with
    | none =>
      have hs := discover_step_none search target today s hstep
      simp only [discover_loop, hstep]
      rcases hs with h1 | h1 | ⟨city, hc, hm⟩
      · exact Or.inl h1
      · exact Or.inr (Or.inr (Or.inl h1))
      · exact Or.inr (Or.inr (Or.inr ⟨city, hc, hm⟩))
    | some s2 =>
      obtain ⟨_, city, _, _, hatt, _, _⟩ := discover_step_some search target today s s2 hstep
      have hlen : 10 ≤ s2.attempted.length + n := by
        rw [hatt]
        simp only [List.length_append, List.length_cons, List.length_nil]
        omega
      simpa [discover_loop, hstep] using ih s2 hlen

/-- C9: in every discovery run, at most 10 cities are attempted, the
inserted total never exceeds `LEADS_PER_DAY`, every attempted city (in
order, including zero-yield cities) has been marked as searched in the
final rotation, and the loop stopped only because the target was reached,
the rotation repeated a city, 10 cities were attempted, or the rotation is
empty. -/
theorem discover_run_guarded
    (search : String → String → List Lead) (target today : Nat)
    (rotation : List CityRow) (leads : List Lead) :
    (discover_run search target today rotation leads).attempted.length ≤ 10 ∧
    (discover_run search target today rotation leads).inserted ≤ target ∧
    (discover_run search target today rotation leads).rotation =
      (discover_run search target today rotation leads).attempted.foldl
        (fun db k => update_city_searched db k.1 k.2 today) rotation ∧
    (target ≤ (discover_run search target today rotation leads).inserted ∨
      10 ≤ (discover_run search target today rotation leads).attempted.length ∨
      get_next_city (discover_run search target today rotation leads).rotation = none ∨
      ∃ city, get_next_city (discover_run search target today rotation leads).rotation =
          some city ∧
        (city.city_name, city.country) ∈
          (discover_run search target today rotation leads).attempted) := by
  obtain ⟨fresh, hf1, hf2, hf3⟩ := discover_loop_invariant search target today 10
    { rotation := rotation, leads := leads, inserted := 0, attempted := [] }
  refine ⟨?_, ?_, ?_, ?_⟩
  · rw [discover_run, hf1]
    simpa using hf2
  · exact discover_loop_inserted_le search target today 10 _ (Nat.zero_le _)
  · rw [discover_run, hf1, hf3]
    simp
  · exact discover_loop_stops search target today 10 _ (by simp)

/-- C10: `reset_city_rotation` stamps every row with `last_searched = today`
and `search_count = 1`, then clears only the rows matching the target; the
returned flag is true iff at least one row matched; and on the failure path
(no matching row) the flag is false while every row has still been stamped
— the store is modified even then. -/
theorem reset_city_rotation_spec
    (db : List CityRow) (start_city : String) (start_country : Option String)
    (today : Nat) :
    (reset_city_rotation db start_city start_country today).1 =
      db.map (fun r =>
        if reset_target start_city start_country r then
          { r with last_searched := none, search_count := 0 }
        else { r with last_searched := some today, search_count := 1 }) ∧
    ((reset_city_rotation db start_city start_country today).2 = true ↔
      ∃ r ∈ db, reset_target start_city start_country r = true) ∧
    ((∀ r ∈ db, reset_target start_city start_country r = false) →
      (reset_city_rotation db start_city start_country today).2 = false ∧
      (reset_city_rotation db start_city start_country today).1 =
        db.map (fun r => { r with last_searched := some today, search_count := 1 })) := by
  have hpres : ∀ r : CityRow,
      reset_target start_city start_country
          { r with last_searched := some today, search_count := 1 } =
        reset_target start_city start_country r := by
    intro r
    cases start_country <;> rfl
  have hmain : (reset_city_rotation db start_city start_country today).1 =
      db.map (fun r =>
        if reset_target start_city start_country r then
          { r with last_searched := none, search_count := 0 }
        else { r with last_searched := some today, search_count := 1 }) := by
    simp only [reset_city_rotation, List.map_map]
    refine List.map_congr_left ?_
    intro r _
    simp only [Function.comp_apply, hpres]
  refine ⟨hmain, ?_, ?_⟩
  · simp only [reset_city_rotation, decide_eq_true_eq, List.length_pos,
      ne_eq, List.filter_eq_nil_iff]
    constructor
    · intro h
      push_neg at h
      obtain ⟨a, ha, hta⟩ := h
      rw [List.mem_map] at ha
      obtain ⟨r, hr, hra⟩ := ha
      refine ⟨r, hr, ?_⟩
      rw [← hpres r, hra]
      simpa using hta
    · rintro ⟨r, hr, htr⟩ hnone
      exact hnone _ (List.mem_map_of_mem _ hr) (by rw [hpres]; exact htr)
  · intro hall
    constructor
    · simp only [reset_city_rotation, decide_eq_false_iff_not, List.length_pos,
        ne_eq, not_not, List.filter_eq_nil_iff]
      intro a ha
      rw [List.mem_map] at ha
      obtain ⟨r, hr, hra⟩ := ha
      rw [← hra, hpres]
      simp [hall r hr]
    · rw [hmain]
      refine List.map_congr_left ?_
      intro r hr
      rw [if_neg (by simp [hall r hr])]

/-- Witness rotation table for C10: two cities, no row matching the target. -/
def c10_db : List CityRow :=
  [{ city_name := "Madrid", country := "ES", language := "es",
     last_searched := none, search_count := 0 },
   { city_name := "Lima", country := "PE", language := "es",
     last_searched := some 3, search_count := 2 }]

/-- Witness for C10: resetting to an unknown city returns false yet stamps
every row as searched today. -/
theorem reset_city_rotation_spec_witness :
    (reset_city_rotation c10_db "Paris" none 5).2 = false ∧
    (reset_city_rotation c10_db "Paris" none 5).1 =
      c10_db.map (fun r => { r with last_searched := some 5, search_count := 1 }) :=
  (reset_city_rotation_spec c10_db "Paris" none 5).2.2 (by decide)

/-- Rounding with `round(x, 2)` fixes integers. -/
theorem round2_intCast (k : Int) : round2 ((k : Rat)) = (k : Rat) := by
  unfold round2
  have h : ((k : Rat) * 100) = ((k * 100 : Int) : Rat) := by push_cast; ring
  rw [h, round_intCast]
  push_cast
  ring

/-- Clamping then rounding the success rate as the code does equals the
claimed `max(0, 100 - 25 · errorCount)`. -/
theorem success_rate_eq (e : Nat) :
    round2 (max 0 (100 - min 100 ((e : Rat) * 25))) = max 0 (100 - 25 * (e : Rat)) := by
  by_cases h : (e : Rat) * 25 ≤ 100
  · rw [min_eq_right h]
    have hnn : (0 : Rat) ≤ 100 - (e : Rat) * 25 := by linarith
    rw [max_eq_right hnn, max_eq_right (by linarith)]
    have hcast : (100 - (e : Rat) * 25) = ((100 - 25 * (e : Int) : Int) : Rat) := by
      push_cast
      ring
    rw [hcast, round2_intCast]
    push_cast
    ring
  · have hge : (100 : Rat) ≤ (e : Rat) * 25 := le_of_not_le h
    rw [min_eq_left hge]
    simp only [sub_self, max_self]
    have h0 : round2 (0 : Rat) = 0 := by
      rw [show (0 : Rat) = ((0 : Int) : Rat) by norm_num, round2_intCast]
    rw [h0, max_eq_left (by linarith)]

/-- Millisecond-exact non-negative durations round to themselves. -/
theorem avg_latency_eq (d : Rat) (hd : 0 ≤ d) (hden : (d * 1000).den = 1) :
    round2 (max d 0 * 1000) = d * 1000 := by
  rw [max_eq_left hd]
  have h := (Rat.den_eq_one_iff (d * 1000)).mp hden
  rw [← h, round2_intCast]

/-- The facade emits exactly one status row per pipeline run. -/
theorem build_rows_loop_length (outreach : List OutreachRow)
    (mock : Option (Int × Int)) (now : Nat) :
    ∀ l : List PipelineRunRow, (build_rows_loop outreach mock now l).length = l.length := by
  intro l
  induction l with
  | nil => rfl
  | cons a t ih =>
    cases t with
    | nil => rfl
    | cons b t2 =>
      simp only [List.length_cons] at ih
      simp only [build_rows_loop, List.length_cons]
      omega

/-- Indexing the loop output: row `i` is built from run `i`, with the window
bounded by run `i+1` (or `now` for the last run). -/
theorem build_rows_loop_getElem (outreach : List OutreachRow)
    (mock : Option (Int × Int)) (now : Nat) :
    ∀ (l : List PipelineRunRow) (i : Nat) (r : PipelineRunRow),
      l[i]? = some r →
      (build_rows_loop outreach mock now l)[i]? =
        some (build_status_row outreach mock r
          (match l[i + 1]? with
           | some r2 => r2.run_date
           | none => now)) := by
  intro l
  induction l with
  | nil =>
    intro i r h
    simp at h
  | cons a t ih =>
    intro i r h
    cases t with
    | nil =>
      cases i with
      | zero =>
        simp only [List.getElem?_cons_zero, Option.some_inj] at h
        subst h
        simp [build_rows_loop]
      | succ n =>
        simp at h
    | cons b t2 =>
      cases i with
      | zero =>
        simp only [List.getElem?_cons_zero, Option.some_inj] at h
        subst h
        simp [build_rows_loop]
      | succ n =>
        have h2 : (b :: t2)[n]? = some r := by simpa using h
        have hrec := ih n r h2
        simp only [build_rows_loop, List.getElem?_cons_succ]
        simpa using hrec

/-- Pipeline run of the C5 counterexample: three recorded errors. -/
def c5cex_run : PipelineRunRow :=
  { run_date := 1000, leads_discovered := some 0, outreach_sent := some 1,
    errors := ["e1", "e2", "e3"], duration_seconds := 1 }

/-- C5 counterexample: a run with three errors is reported with status
`"En revision"` (no accent), not the claimed `"En revisión"`. -/
theorem agent_status_accent_cex :
    (build_status_rows [c5cex_run] [] none 2000 [] 0).map (fun row => row.status) =
      ["En revision"] ∧
    ("En revision" : String) ≠ "En revisión" := by
  constructor
  · rfl
  · decide

/-- C5 (amended): `GET /api/acem/agent-status` (mock disabled) returns one
row per `PipelineRun` with `run_date ≥ updated_after`; the row of run `i`
has `bucket_start` floored to the 10-minute boundary, `runs_total = 1`,
`success_rate = max(0, 100 - 25·errorCount)`, `avg_latency_ms =
duration_seconds · 1000`, `tasks_completed` = the `outreach_sent` of the run or,
when that count is absent or zero, the count of initial outreach rows
between the timestamp of this run and that of the next (or now for the last run);
`status` is `"Activo"` for 0 errors, `"Optimizando"` for 1-2 and
`"En revision"` (without accent) for 3 or more. -/
theorem agent_status_rows_spec
    (db : List PipelineRunRow) (outreach : List OutreachRow)
    (now ua : Nat) (snapshot : List StatusRow) (i : Nat) (r : PipelineRunRow)
    (hr : (get_pipeline_runs db ua)[i]? = some r)
    (hd : 0 ≤ r.duration_seconds)
    (hden : (r.duration_seconds * 1000).den = 1)
    (hos : 0 ≤ r.outreach_sent.getD 0) :
    (build_status_rows db outreach none now snapshot ua).length =
      (db.filter (fun x => ua ≤ x.run_date)).length ∧
    (get_pipeline_runs db ua).Perm (db.filter (fun x => ua ≤ x.run_date)) ∧
    (build_status_rows db outreach none now snapshot ua)[i]? =
      some
        { status := status_from_errors r.errors.length
          bucket_start := bucket_10min r.run_date
          runs_total := 1
          success_rate := max 0 (100 - 25 * (r.errors.length : Rat))
          avg_latency_ms := r.duration_seconds * 1000
          tasks_completed :=
            if 0 < r.outreach_sent.getD 0 then r.outreach_sent.getD 0
            else (count_outreach_sent_between outreach r.run_date
              (match (get_pipeline_runs db ua)[i + 1]? with
               | some r2 => r2.run_date
               | none => now) : Int)
          updated_at := r.run_date } ∧
    (∀ n : Nat, n = 0 → status_from_errors n = "Activo") ∧
    (∀ n : Nat, 1 ≤ n → n ≤ 2 → status_from_errors n = "Optimizando") ∧
    (∀ n : Nat, 3 ≤ n → status_from_errors n = "En revision") ∧
    (∀ ts : Nat, bucket_10min ts % 600 = 0 ∧ bucket_10min ts ≤ ts ∧
      ts < bucket_10min ts + 600) := by
  have hperm : (get_pipeline_runs db ua).Perm (db.filter (fun x => ua ≤ x.run_date)) :=
    List.perm_insertionSort run_date_le _
  have hne : get_pipeline_runs db ua ≠ [] := by
    intro hnil
    rw [hnil] at hr
    simp at hr
  have hloopform : build_status_rows db outreach none now snapshot ua =
      build_rows_loop outreach none now (get_pipeline_runs db ua) := by
    unfold build_status_rows
    cases hrows : get_pipeline_runs db ua with
    | nil => exact absurd hrows hne
    | cons a t => rfl
  refine ⟨?_, hperm, ?_, ?_, ?_, ?_, ?_⟩
  · rw [hloopform, build_rows_loop_length]
    exact hperm.length_eq
  · rw [hloopform, build_rows_loop_getElem outreach none now _ i r hr]
    congr 1
    unfold build_status_row
    simp only [Option.some_inj]
    have hsucc : round2 (max 0 (100 - min 100 ((r.errors.length : Rat) * 25))) =
        max 0 (100 - 25 * (r.errors.length : Rat)) := success_rate_eq r.errors.length
    have havg : round2 (max r.duration_seconds 0 * 1000) = r.duration_seconds * 1000 :=
      avg_latency_eq r.duration_seconds hd hden
    by_cases hpos : 0 < r.outreach_sent.getD 0
    · rw [if_neg (by omega), if_pos hpos]
      simp only [hsucc, havg]
      rw [max_eq_left (le_of_lt hpos)]
    · have hz : r.outreach_sent.getD 0 = 0 := by omega
      rw [if_pos (by omega), if_neg hpos]
      simp only [hsucc, havg]
      rw [max_eq_left (Int.natCast_nonneg _)]
  · intro n hn
    subst hn
    rfl
  · intro n h1 h2
    unfold status_from_errors
    rw [if_neg (by omega), if_pos h2]
  · intro n h3
    unfold status_from_errors
    rw [if_neg (by omega), if_neg (by omega)]
  · intro ts
    unfold bucket_10min
    refine ⟨?_, ?_, ?_⟩ <;> omega

/-- Witness pipeline run for C5: 12:37:04 as a seconds timestamp,
`outreach_sent = 4`, no errors, 2.5-second duration. -/
def c5w_run : PipelineRunRow :=
  { run_date := 45424, leads_discovered := some 1, outreach_sent := some 4,
    errors := [], duration_seconds := 5 / 2 }

/-- Witness for the amended C5 at the scenario of the spec: one clean run. -/
theorem agent_status_rows_spec_witness :
    (build_status_rows [c5w_run] [] none 90000 [] 0).length =
      (([c5w_run] : List PipelineRunRow).filter (fun x => 0 ≤ x.run_date)).length ∧
    (get_pipeline_runs [c5w_run] 0).Perm
      (([c5w_run] : List PipelineRunRow).filter (fun x => 0 ≤ x.run_date)) ∧
    (build_status_rows [c5w_run] [] none 90000 [] 0)[0]? =
      some
        { status := status_from_errors c5w_run.errors.length
          bucket_start := bucket_10min c5w_run.run_date
          runs_total := 1
          success_rate := max 0 (100 - 25 * (c5w_run.errors.length : Rat))
          avg_latency_ms := c5w_run.duration_seconds * 1000
          tasks_completed :=
            if 0 < c5w_run.outreach_sent.getD 0 then c5w_run.outreach_sent.getD 0
            else (count_outreach_sent_between [] c5w_run.run_date
              (match (get_pipeline_runs [c5w_run] 0)[0 + 1]? with
               | some r2 => r2.run_date
               | none => 90000) : Int)
          updated_at := c5w_run.run_date } ∧
    (∀ n : Nat, n = 0 → status_from_errors n = "Activo") ∧
    (∀ n : Nat, 1 ≤ n → n ≤ 2 → status_from_errors n = "Optimizando") ∧
    (∀ n : Nat, 3 ≤ n → status_from_errors n = "En revision") ∧
    (∀ ts : Nat, bucket_10min ts % 600 = 0 ∧ bucket_10min ts ≤ ts ∧
      ts < bucket_10min ts + 600) :=
  agent_status_rows_spec [c5w_run] [] 90000 0 [] 0 c5w_run
    (by rfl) (by norm_num [c5w_run]) (by norm_num [c5w_run]) (by decide)

end AgentPlatform
